import Mathlib

/-!
# Verification of the Bristol venue-survey data layer

Shallow embedding of the venue store in `src/app.py`: the `Venue`
record (SQLAlchemy model), the `Database` operations
(`get_venue_by_id`, `update_venue`, `filter_venues`, `get_statistics`,
`import_from_csv`), the export page's dataframe construction, and the
`calculate_distance` helper.  Timestamps (`datetime`) are abstracted
as natural numbers supplied explicitly by the caller; SQL `REAL`
values are modelled as rationals; nullable columns as `Option`.
-/

/-- One row of the `venues` table (the SQLAlchemy `Venue` model).
Nullable columns are `Option`; `Float` columns are `ℚ`; `DateTime`
columns are abstract instants (`Nat`).  The boolean columns `visited`,
`is_priority`, `validated`, `is_chain` are `Bool` (their value as
written by the import / update paths, which never store SQL NULL in
them). -/
structure Venue where
  id : Nat
  google_place_id : Option String
  google_name : Option String
  name : Option String
  osm_id : Option ℚ
  osm_type : Option String
  amenity : Option String
  cuisine : Option String
  search_type : Option String
  google_phone : Option String
  google_phone_intl : Option String
  phone : Option String
  google_website : Option String
  website : Option String
  google_vicinity : Option String
  address : Option String
  housenumber : Option String
  postcode : Option String
  search_ward : Option String
  search_postcode_sector : Option String
  search_constituency : Option String
  google_lat : Option ℚ
  google_lng : Option ℚ
  latitude : Option ℚ
  longitude : Option ℚ
  google_rating : Option ℚ
  google_user_ratings_total : Option Int
  google_price_level : Option Int
  business_status : Option String
  validated : Bool
  data_source : Option String
  is_chain : Bool
  opening_hours : Option String
  google_opening_hours : Option String
  outdoor_seating : Option String
  takeaway : Option String
  delivery : Option String
  wheelchair : Option String
  google_types : Option String
  google_photo_reference : Option String
  visited : Bool
  visit_date : Option Nat
  interest_status : Option String
  is_priority : Bool
  notes : Option String
  created_at : Nat
  updated_at : Nat
deriving DecidableEq, Repr

/-- The persisted state behind the `Database` class: the `venues`
table in rowid order, plus the next value of the autoincrementing
primary key. -/
structure Database where
  venues : List Venue
  next_id : Nat
deriving DecidableEq, Repr

/-- Embeds `Database.get_all_venues`. -/
def get_all_venues (db : Database) : List Venue :=
  db.venues

/-- Embeds `Database.get_venue_by_id`: `query(Venue).filter(Venue.id == venue_id).first()`. -/
def get_venue_by_id (db : Database) (venue_id : Nat) : Option Venue :=
  db.venues.find? (fun v => v.id == venue_id)

/-- One `key: value` entry of the `updates` dict passed to
`Database.update_venue`, applied by `setattr(venue, key, value)`.
One constructor per assignable column of the model. -/
inductive FieldUpdate where
  | google_place_id (x : Option String)
  | google_name (x : Option String)
  | name (x : Option String)
  | osm_id (x : Option ℚ)
  | osm_type (x : Option String)
  | amenity (x : Option String)
  | cuisine (x : Option String)
  | search_type (x : Option String)
  | google_phone (x : Option String)
  | google_phone_intl (x : Option String)
  | phone (x : Option String)
  | google_website (x : Option String)
  | website (x : Option String)
  | google_vicinity (x : Option String)
  | address (x : Option String)
  | housenumber (x : Option String)
  | postcode (x : Option String)
  | search_ward (x : Option String)
  | search_postcode_sector (x : Option String)
  | search_constituency (x : Option String)
  | google_lat (x : Option ℚ)
  | google_lng (x : Option ℚ)
  | latitude (x : Option ℚ)
  | longitude (x : Option ℚ)
  | google_rating (x : Option ℚ)
  | google_user_ratings_total (x : Option Int)
  | google_price_level (x : Option Int)
  | business_status (x : Option String)
  | validated (x : Bool)
  | data_source (x : Option String)
  | is_chain (x : Bool)
  | opening_hours (x : Option String)
  | google_opening_hours (x : Option String)
  | outdoor_seating (x : Option String)
  | takeaway (x : Option String)
  | delivery (x : Option String)
  | wheelchair (x : Option String)
  | google_types (x : Option String)
  | google_photo_reference (x : Option String)
  | visited (x : Bool)
  | visit_date (x : Option Nat)
  | interest_status (x : Option String)
  | is_priority (x : Bool)
  | notes (x : Option String)
  | created_at (x : Nat)
  | updated_at (x : Nat)
deriving DecidableEq, Repr

/-- Embeds `setattr(venue, key, value)` for one dict entry. -/
def applyUpdate (v : Venue) : FieldUpdate → Venue
  | .google_place_id x => { v with google_place_id := x }
  | .google_name x => { v with google_name := x }
  | .name x => { v with name := x }
  | .osm_id x => { v with osm_id := x }
  | .osm_type x => { v with osm_type := x }
  | .amenity x => { v with amenity := x }
  | .cuisine x => { v with cuisine := x }
  | .search_type x => { v with search_type := x }
  | .google_phone x => { v with google_phone := x }
  | .google_phone_intl x => { v with google_phone_intl := x }
  | .phone x => { v with phone := x }
  | .google_website x => { v with google_website := x }
  | .website x => { v with website := x }
  | .google_vicinity x => { v with google_vicinity := x }
  | .address x => { v with address := x }
  | .housenumber x => { v with housenumber := x }
  | .postcode x => { v with postcode := x }
  | .search_ward x => { v with search_ward := x }
  | .search_postcode_sector x => { v with search_postcode_sector := x }
  | .search_constituency x => { v with search_constituency := x }
  | .google_lat x => { v with google_lat := x }
  | .google_lng x => { v with google_lng := x }
  | .latitude x => { v with latitude := x }
  | .longitude x => { v with longitude := x }
  | .google_rating x => { v with google_rating := x }
  | .google_user_ratings_total x => { v with google_user_ratings_total := x }
  | .google_price_level x => { v with google_price_level := x }
  | .business_status x => { v with business_status := x }
  | .validated x => { v with validated := x }
  | .data_source x => { v with data_source := x }
  | .is_chain x => { v with is_chain := x }
  | .opening_hours x => { v with opening_hours := x }
  | .google_opening_hours x => { v with google_opening_hours := x }
  | .outdoor_seating x => { v with outdoor_seating := x }
  | .takeaway x => { v with takeaway := x }
  | .delivery x => { v with delivery := x }
  | .wheelchair x => { v with wheelchair := x }
  | .google_types x => { v with google_types := x }
  | .google_photo_reference x => { v with google_photo_reference := x }
  | .visited x => { v with visited := x }
  | .visit_date x => { v with visit_date := x }
  | .interest_status x => { v with interest_status := x }
  | .is_priority x => { v with is_priority := x }
  | .notes x => { v with notes := x }
  | .created_at x => { v with created_at := x }
  | .updated_at x => { v with updated_at := x }

/-- The body of `update_venue`'s found branch: the `for key, value in
updates.items(): setattr(...)` loop followed by
`venue.updated_at = datetime.utcnow()`. -/
def applyThenStamp (now : Nat) (updates : List FieldUpdate) (v : Venue) : Venue :=
  { updates.foldl applyUpdate v with updated_at := now }

/-- Embeds `Database.update_venue(venue_id, updates)` at instant `now`
(`datetime.utcnow()`): returns the venue handed back to the caller
(`None` when the id is absent) and the committed store. -/
def update_venue (db : Database) (now : Nat) (venue_id : Nat)
    (updates : List FieldUpdate) : Option Venue × Database :=
  match db.venues.find? (fun v => v.id == venue_id) with
  | none => (none, db)
  | some v =>
      (some (applyThenStamp now updates v),
       { db with venues :=
          db.venues.map (fun w =>
            if w.id == venue_id then applyThenStamp now updates w else w) })

/-- The matching test shared by `ward`, `postcode_sector`, `amenity`
and `cuisine` in `filter_venues`: `if crit and crit != "All": query =
query.filter(col == crit)`.  A Python `None` or empty string is falsy,
and the `"All"` sentinel is skipped; a SQL `NULL` column never equals
a string. -/
def sentinelMatch (crit : Option String) (field : Option String) : Bool :=
  match crit with
  | none => true
  | some c => if c = "" ∨ c = "All" then true else decide (field = some c)

/-- The matching test shared by `interest_status` and
`business_status`: `if crit: query = query.filter(col == crit)`
(truthiness only, no `"All"` sentinel). -/
def truthyMatch (crit : Option String) (field : Option String) : Bool :=
  match crit with
  | none => true
  | some c => if c = "" then true else decide (field = some c)

/-- Embeds `if min_rating and min_rating > 0: query =
query.filter(Venue.google_rating >= min_rating)`: a `0` (falsy) or
non-positive bound filters nothing; under a positive bound a SQL
`NULL` rating fails the `>=` comparison and is excluded. -/
def ratingMatch (min_rating : Option ℚ) (rating : Option ℚ) : Bool :=
  match min_rating with
  | none => true
  | some r =>
      if 0 < r then
        match rating with
        | some g => decide (r ≤ g)
        | none => false
      else true

/-- Embeds `if visited is not None: query = query.filter(Venue.visited == visited)`. -/
def visitedMatch (crit : Option Bool) (field : Bool) : Bool :=
  match crit with
  | none => true
  | some b => field == b

/-- Conjunction of all `filter_venues` criteria other than the
business-status one, in source order. -/
def matchesCriteria (ward postcode_sector amenity cuisine : Option String)
    (min_rating : Option ℚ) (visited : Option Bool)
    (interest_status : Option String) (v : Venue) : Bool :=
  sentinelMatch ward v.search_ward &&
  sentinelMatch postcode_sector v.search_postcode_sector &&
  sentinelMatch amenity v.amenity &&
  sentinelMatch cuisine v.cuisine &&
  ratingMatch min_rating v.google_rating &&
  visitedMatch visited v.visited &&
  truthyMatch interest_status v.interest_status

/-- Embeds `Database.filter_venues`.  Arguments appear in source order; the
Python default `business_status='OPERATIONAL'` is rendered by passing
`some "OPERATIONAL"`, and an explicit `business_status=None` by
passing `none`.  The business-status clause is applied first, exactly
as in the source; all clauses conjoin. -/
def filter_venues (db : Database) (ward postcode_sector amenity cuisine : Option String)
    (min_rating : Option ℚ) (visited : Option Bool)
    (interest_status business_status : Option String) : List Venue :=
  db.venues.filter (fun v =>
    truthyMatch business_status v.business_status &&
    matchesCriteria ward postcode_sector amenity cuisine min_rating visited
      interest_status v)

/-- The dict returned by `Database.get_statistics`. -/
structure Stats where
  total : Nat
  visited : Nat
  not_visited : Nat
  interested : Nat
  not_interested : Nat
  conversion_rate : ℚ
deriving DecidableEq, Repr

/-- Embeds `Database.get_statistics`: whole-table counts (no business-status
filter) and the guarded conversion rate. -/
def get_statistics (db : Database) : Stats :=
  let total := db.venues.length
  let visited := (db.venues.filter (fun v => v.visited)).length
  let interested :=
    (db.venues.filter (fun v => decide (v.interest_status = some "interested"))).length
  let not_interested :=
    (db.venues.filter (fun v => decide (v.interest_status = some "not_interested"))).length
  { total := total
    visited := visited
    not_visited := total - visited
    interested := interested
    not_interested := not_interested
    conversion_rate :=
      if 0 < visited then (interested : ℚ) / (visited : ℚ) * 100 else 0 }

/-- A CSV cell as `pandas.read_csv` and `row.get` deliver it to
`import_from_csv`: a string, a parsed number (`read_csv` parses
numeric columns to floats/ints), a missing value in a *present*
column (`NaN`, a float, for which `pd.notna` is false), or an
*absent* column (`Series.get` returns the Python `None` object).
The last two behave identically under `pd.notna` and on insert (the
sqlite driver binds a NaN float as SQL `NULL`), but differently in
the SQLAlchemy de-duplication comparison: `== None` renders
`IS NULL`, while `== nan` renders `= NaN`, which matches no row. -/
inductive Cell where
  | str (s : String)
  | num (q : ℚ)
  | nan
  | absent
deriving DecidableEq, Repr

/-- One CSV row: header-named cells.  `rowGet` is `row.get(key)`,
yielding missing for an absent column. -/
abbrev Row : Type := List (String × Cell)

/-- Embeds `row.get(key)`. -/
def rowGet (row : Row) (key : String) : Cell :=
  match List.find? (fun p => p.1 == key) row with
  | some p => p.2
  | none => .absent

/-- A string-typed column assignment `col=row.get(key)`, as stored:
an absent column stores SQL `NULL`, and so does a NaN cell (the
driver binds the NaN float as `NULL`); SQLite's TEXT affinity
converts a numeric value bound into a `String` column to its decimal
rendering. -/
def cellToStr : Cell → Option String
  | .str s => some s
  | .num q => some (toString q)
  | .nan => none
  | .absent => none

/-- The accumulated value of a digit string. -/
def digitsToNat (ds : List Char) : Nat :=
  ds.foldl (fun acc c => acc * 10 + (c.toNat - '0'.toNat)) 0

/-- Python `float()` on a string, for the decimal forms CSV data
takes: optional sign, digits with an optional fractional part, and an
optional signed exponent; anything else raises (`none` here).
Exact-rational semantics stands in for the binary float value;
underscored literals, `inf`/`nan` spellings and surrounding
whitespace are not modelled. -/
def parseFloat? (s : String) : Option ℚ :=
  let cs := s.data
  let signAndRest : ℚ × List Char :=
    match cs with
    | '-' :: rest => (-1, rest)
    | '+' :: rest => (1, rest)
    | _ => (1, cs)
  let sign := signAndRest.1
  let cs1 := signAndRest.2
  let intPart := cs1.takeWhile Char.isDigit
  let cs2 := cs1.dropWhile Char.isDigit
  let fracAndRest : List Char × List Char :=
    match cs2 with
    | '.' :: rest => (rest.takeWhile Char.isDigit, rest.dropWhile Char.isDigit)
    | _ => ([], cs2)
  let fracPart := fracAndRest.1
  let cs3 := fracAndRest.2
  if intPart.isEmpty ∧ fracPart.isEmpty then none
  else
    let mant : ℚ := (digitsToNat (intPart ++ fracPart) : ℚ) / 10 ^ fracPart.length
    match cs3 with
    | [] => some (sign * mant)
    | e :: rest =>
        if e = 'e' ∨ e = 'E' then
          let esignAndRest : Bool × List Char :=
            match rest with
            | '-' :: r => (true, r)
            | '+' :: r => (false, r)
            | _ => (false, rest)
          let eneg := esignAndRest.1
          let rest1 := esignAndRest.2
          let eDigits := rest1.takeWhile Char.isDigit
          let rest2 := rest1.dropWhile Char.isDigit
          if eDigits.isEmpty ∨ ¬ rest2.isEmpty then none
          else
            let ex := digitsToNat eDigits
            some (sign * (if eneg then mant / 10 ^ ex else mant * 10 ^ ex))
        else none

/-- Python `int()` on a string: an optional sign followed by digits
only (`int('4.5')` raises); underscored literals and surrounding
whitespace are not modelled. -/
def parseInt? (s : String) : Option Int :=
  let cs := s.data
  let signAndRest : Bool × List Char :=
    match cs with
    | '-' :: rest => (true, rest)
    | '+' :: rest => (false, rest)
    | _ => (false, cs)
  let neg := signAndRest.1
  let cs1 := signAndRest.2
  let ds := cs1.takeWhile Char.isDigit
  let rest := cs1.dropWhile Char.isDigit
  if ds.isEmpty ∨ ¬ rest.isEmpty then none
  else some (if neg then -(digitsToNat ds : Int) else (digitsToNat ds : Int))

/-- Embeds `float(row.get(key)) if pd.notna(row.get(key)) else None`:
a NaN cell or absent column stays `NULL`, a number converts, and
`float()` on a string succeeds exactly on numeric literals (mixed-
dtype object columns can deliver them) and raises otherwise. -/
def cellToFloat : Cell → Except Unit (Option ℚ)
  | .nan => .ok none
  | .absent => .ok none
  | .num q => .ok (some q)
  | .str s =>
      match parseFloat? s with
      | some q => .ok (some q)
      | none => .error ()

/-- Python `int()` truncation toward zero on a rational. -/
def ratTrunc (q : ℚ) : Int :=
  if q < 0 then -(Int.floor (-q)) else Int.floor q

/-- Embeds `int(row.get(key)) if pd.notna(row.get(key)) else None`:
a NaN cell or absent column stays `NULL`, a float truncates, and
`int()` on a string succeeds exactly on integer literals. -/
def cellToInt : Cell → Except Unit (Option Int)
  | .nan => .ok none
  | .absent => .ok none
  | .num q => .ok (some (ratTrunc q))
  | .str s =>
      match parseInt? s with
      | some i => .ok (some i)
      | none => .error ()

/-- Embeds `bool(row.get(key)) if pd.notna(row.get(key)) else False`:
a NaN cell or absent column is `False` (the deliberate asymmetry with
the numeric fields); Python truthiness makes any non-empty string and
any non-zero number `True`. -/
def cellToBool : Cell → Bool
  | .nan => false
  | .absent => false
  | .num q => decide (q ≠ 0)
  | .str s => decide (s ≠ "")

/-- The de-duplication key cell of a row: the raw
`row.get('google_place_id')` value that SQLAlchemy compares. -/
def rowKey (row : Row) : Cell :=
  rowGet row "google_place_id"

/-- The SQL predicate `Venue.google_place_id == row.get(...)`
evaluated against one stored key.  An absent column is the Python
`None` object, rendered `IS NULL`; a NaN cell is a float, rendered
`= NaN`, which SQL three-valued logic satisfies for no row — stored
`NULL` included; a string compares literally; a number compares
against the TEXT-affinity rendering under which it was stored. -/
def keyMatches (cell : Cell) (stored : Option String) : Bool :=
  match cell with
  | .absent => decide (stored = none)
  | .nan => false
  | .str s => decide (stored = some s)
  | .num q => decide (stored = some (toString q))

/-- The numeric conversions performed by the `Venue(...)` constructor
call, in source order.  These are the only operations in the per-row
`try` block that can raise, so a row errors independently of the
store state. -/
def rowNums (row : Row) :
    Except Unit (Option ℚ × Option ℚ × Option ℚ × Option ℚ × Option ℚ ×
      Option ℚ × Option Int × Option Int) := do
  let osm_id ← cellToFloat (rowGet row "osm_id")
  let google_lat ← cellToFloat (rowGet row "google_lat")
  let google_lng ← cellToFloat (rowGet row "google_lng")
  let latitude ← cellToFloat (rowGet row "latitude")
  let longitude ← cellToFloat (rowGet row "longitude")
  let google_rating ← cellToFloat (rowGet row "google_rating")
  let google_user_ratings_total ← cellToInt (rowGet row "google_user_ratings_total")
  let google_price_level ← cellToInt (rowGet row "google_price_level")
  pure (osm_id, google_lat, google_lng, latitude, longitude, google_rating,
    google_user_ratings_total, google_price_level)

/-- The `Venue(...)` constructor call in `import_from_csv`, evaluated
at primary key `vid` and insert instant `now`.  The survey columns
are not among the constructor's keyword arguments, so they take the
model's column defaults (`visited=False`, `is_priority=False`, dates
and status `NULL`); `created_at`/`updated_at` default to the insert
time. -/
def buildVenue (row : Row) (vid : Nat) (now : Nat) : Except Unit Venue :=
  (rowNums row).map (fun nums =>
    { id := vid
      google_place_id := cellToStr (rowGet row "google_place_id")
      google_name := cellToStr (rowGet row "google_name")
      name := cellToStr (rowGet row "name")
      osm_id := nums.1
      osm_type := cellToStr (rowGet row "osm_type")
      amenity := cellToStr (rowGet row "amenity")
      cuisine := cellToStr (rowGet row "cuisine")
      search_type := cellToStr (rowGet row "search_type")
      google_phone := cellToStr (rowGet row "google_phone")
      google_phone_intl := cellToStr (rowGet row "google_phone_intl")
      phone := cellToStr (rowGet row "phone")
      google_website := cellToStr (rowGet row "google_website")
      website := cellToStr (rowGet row "website")
      google_vicinity := cellToStr (rowGet row "google_vicinity")
      address := cellToStr (rowGet row "address")
      housenumber := cellToStr (rowGet row "housenumber")
      postcode := cellToStr (rowGet row "postcode")
      search_ward := cellToStr (rowGet row "search_ward")
      search_postcode_sector := cellToStr (rowGet row "search_postcode_sector")
      search_constituency := cellToStr (rowGet row "search_constituency")
      google_lat := nums.2.1
      google_lng := nums.2.2.1
      latitude := nums.2.2.2.1
      longitude := nums.2.2.2.2.1
      google_rating := nums.2.2.2.2.2.1
      google_user_ratings_total := nums.2.2.2.2.2.2.1
      google_price_level := nums.2.2.2.2.2.2.2
      business_status := cellToStr (rowGet row "business_status")
      validated := cellToBool (rowGet row "validated")
      data_source := cellToStr (rowGet row "data_source")
      is_chain := cellToBool (rowGet row "is_chain")
      opening_hours := cellToStr (rowGet row "opening_hours")
      google_opening_hours := cellToStr (rowGet row "google_opening_hours")
      outdoor_seating := cellToStr (rowGet row "outdoor_seating")
      takeaway := cellToStr (rowGet row "takeaway")
      delivery := cellToStr (rowGet row "delivery")
      wheelchair := cellToStr (rowGet row "wheelchair")
      google_types := cellToStr (rowGet row "google_types")
      google_photo_reference := cellToStr (rowGet row "google_photo_reference")
      visited := false
      visit_date := none
      interest_status := none
      is_priority := false
      notes := none
      created_at := now
      updated_at := now })

/-- Does the store already hold a venue matching this key cell?
This is the `existing = query(...google_place_id == row.get(...)).first()`
check, with `keyMatches` supplying the rendered comparison per cell
kind; the session's autoflush makes venues added earlier in the same
batch visible. -/
def hasKey (db : Database) (k : Cell) : Bool :=
  db.venues.any (fun v => keyMatches k v.google_place_id)

/-- The loop state of `import_from_csv`: the session's view of the
table plus the `count` and `errors` counters. -/
structure ImportState where
  db : Database
  imported : Nat
  errors : Nat
deriving DecidableEq, Repr

/-- One iteration of the `for _, row in df.iterrows()` loop: skip a
row whose key already exists, otherwise construct and add the venue
(counted) or swallow the per-row exception (counted as an error). -/
def importStep (now : Nat) (s : ImportState) (row : Row) : ImportState :=
  if hasKey s.db (rowKey row) then s
  else
    match buildVenue row s.db.next_id now with
    | .ok v =>
        { db := { venues := s.db.venues ++ [v], next_id := s.db.next_id + 1 }
          imported := s.imported + 1
          errors := s.errors }
    | .error _ => { s with errors := s.errors + 1 }

/-- Embeds `Database.import_from_csv(df)` at insert instant `now`: fold the
per-row step over the rows in input order, starting from zeroed
counters; the final state's counters are the returned
`(count, errors)` pair and its `db` the committed store. -/
def import_from_csv (db : Database) (now : Nat) (rows : List Row) : ImportState :=
  rows.foldl (importStep now) ⟨db, 0, 0⟩

/-- Does the numeric coercion of a row raise?  The error of
`buildVenue` depends only on the row, not on the assigned key or the
insert instant. -/
def rowFails (row : Row) : Bool :=
  match rowNums row with
  | .error _ => true
  | .ok _ => false

/-- A row the import will never again count as imported against this
store: either its construction always raises, or its key is already
present. -/
def rowSettled (db : Database) (row : Row) : Prop :=
  rowFails row = true ∨ hasKey db (rowKey row) = true

/-- Python's `x or y` on two nullable strings: `None` and the empty
string are falsy, so the second operand is used exactly then. -/
def pyOrStr (a b : Option String) : Option String :=
  match a with
  | none => b
  | some s => if s = "" then b else some s

/-- Embeds `visit_date.strftime('%Y-%m-%d %H:%M:%S')`: the absolute
rendering of an instant.  Instants are abstract naturals, so the
rendering is their decimal form; what matters to the spec is that it
is a function of the instant alone. -/
def formatTimestamp (t : Nat) : String :=
  toString t

/-- One row of the export dataframe built on the Export page, one
field per CSV column in header order. -/
structure ExportRow where
  idCol : Nat
  nameCol : Option String
  typeCol : Option String
  cuisineCol : Option String
  wardCol : Option String
  postcodeCol : Option String
  postcodeSectorCol : Option String
  addressCol : Option String
  phoneCol : Option String
  websiteCol : Option String
  ratingCol : Option ℚ
  totalReviewsCol : Option Int
  priceLevelCol : Option Int
  latitudeCol : Option ℚ
  longitudeCol : Option ℚ
  businessStatusCol : Option String
  visitedCol : Bool
  visitDateCol : Option String
  interestStatusCol : Option String
  priorityCol : Bool
  notesCol : Option String
  dataSourceCol : Option String
deriving DecidableEq, Repr

/-- The dict comprehension entry of the Export page's `export_df`:
`Address` is `v.google_vicinity or v.address`, `Phone` is
`v.google_phone or v.phone`, `Website` is `v.google_website or
v.website`, and `Visit Date` is the formatted timestamp when
`v.visit_date` is set (`datetime` objects are always truthy) and
`None` otherwise. -/
def export_row (v : Venue) : ExportRow :=
  { idCol := v.id
    nameCol := v.google_name
    typeCol := v.amenity
    cuisineCol := v.cuisine
    wardCol := v.search_ward
    postcodeCol := v.postcode
    postcodeSectorCol := v.search_postcode_sector
    addressCol := pyOrStr v.google_vicinity v.address
    phoneCol := pyOrStr v.google_phone v.phone
    websiteCol := pyOrStr v.google_website v.website
    ratingCol := v.google_rating
    totalReviewsCol := v.google_user_ratings_total
    priceLevelCol := v.google_price_level
    latitudeCol := v.google_lat
    longitudeCol := v.google_lng
    businessStatusCol := v.business_status
    visitedCol := v.visited
    visitDateCol := v.visit_date.map formatTimestamp
    interestStatusCol := v.interest_status
    priorityCol := v.is_priority
    notesCol := v.notes
    dataSourceCol := v.data_source }

/-- Embeds `export_df = pd.DataFrame([{...} for v in export_venues])`. -/
def export_df (venues : List Venue) : List ExportRow :=
  venues.map export_row

/-- The export CSV's fixed header, in the dict-key order of `export_df`. -/
def exportHeaders : List String :=
  ["ID", "Name", "Type", "Cuisine", "Ward", "Postcode", "Postcode Sector",
   "Address", "Phone", "Website", "Rating", "Total Reviews", "Price Level",
   "Latitude", "Longitude", "Business Status", "Visited", "Visit Date",
   "Interest Status", "Priority", "Notes", "Data Source"]

/-- Rendering of a nullable string cell in `to_csv`: `NaN`/`None`
becomes the empty cell.  (CSV quoting of embedded separators is not
modelled; no claim depends on it.) -/
def renderOptStr (s : Option String) : String :=
  s.getD ""

/-- Rendering of a nullable numeric cell. -/
def renderOptNum (q : Option ℚ) : String :=
  match q with
  | some x => toString x
  | none => ""

/-- Rendering of a nullable integer cell. -/
def renderOptInt (i : Option Int) : String :=
  match i with
  | some x => toString x
  | none => ""

/-- Rendering of a Python bool cell. -/
def renderBool (b : Bool) : String :=
  if b then "True" else "False"

/-- The cells of one exported CSV line, in header order. -/
def exportRowCells (r : ExportRow) : List String :=
  [toString r.idCol, renderOptStr r.nameCol, renderOptStr r.typeCol,
   renderOptStr r.cuisineCol, renderOptStr r.wardCol, renderOptStr r.postcodeCol,
   renderOptStr r.postcodeSectorCol, renderOptStr r.addressCol,
   renderOptStr r.phoneCol, renderOptStr r.websiteCol, renderOptNum r.ratingCol,
   renderOptInt r.totalReviewsCol, renderOptInt r.priceLevelCol,
   renderOptNum r.latitudeCol, renderOptNum r.longitudeCol,
   renderOptStr r.businessStatusCol, renderBool r.visitedCol,
   renderOptStr r.visitDateCol, renderOptStr r.interestStatusCol,
   renderBool r.priorityCol, renderOptStr r.notesCol,
   renderOptStr r.dataSourceCol]

/-- Embeds `export_df.to_csv(csv_buffer, index=False)`: the header line then
one line per row, each newline-terminated. -/
def to_csv (rows : List ExportRow) : String :=
  String.join
    ((String.intercalate "," exportHeaders ::
        rows.map (fun r => String.intercalate "," (exportRowCells r))).map
      (fun line => line ++ "\n"))

/-- The Export page's download block: the CSV string offered for
download.  The block is guarded by `if export_venues:` — with an
empty selection no dataframe is built and no file is produced (the
page shows a warning instead), so the result is `none`. -/
def exportBlock (venues : List Venue) : Option String :=
  if venues.isEmpty then none
  else some (to_csv (export_df venues))

/-- Shallow embedding of `calculate_distance`, parametrised by the
analytic primitives it calls (`math.pi` via `math.radians x = x * pi
/ 180`, `math.sin`, `math.cos`, `math.sqrt`, `math.asin`, and
`round(·, 2)`), so the definition stays executable; theorems
instantiate them with the real functions.  `if not all([lat1, lon1,
lat2, lon2]): return None` — a missing (`None`) or zero (falsy)
input short-circuits to `None`. -/
def calculate_distance {α : Type} [Field α] [DecidableEq α]
    (pi : α) (sin cos sqrt asin round2 : α → α)
    (lat1 lon1 lat2 lon2 : Option α) : Option α :=
  match lat1, lon1, lat2, lon2 with
  | some la1, some lo1, some la2, some lo2 =>
      if la1 = 0 ∨ lo1 = 0 ∨ la2 = 0 ∨ lo2 = 0 then none
      else
        let la1r := la1 * pi / 180
        let lo1r := lo1 * pi / 180
        let la2r := la2 * pi / 180
        let lo2r := lo2 * pi / 180
        let dlat := la2r - la1r
        let dlon := lo2r - lo1r
        let a := sin (dlat / 2) ^ 2 + cos la1r * cos la2r * sin (dlon / 2) ^ 2
        let c := 2 * asin (sqrt a)
        some (round2 (3959 * c))
  | _, _, _, _ => none

/-- A venue with every nullable column `NULL`, every boolean `False`
and the bookkeeping instants at epoch: the baseline for concrete test
stores. -/
def blankVenue : Venue :=
  { id := 0
    google_place_id := none
    google_name := none
    name := none
    osm_id := none
    osm_type := none
    amenity := none
    cuisine := none
    search_type := none
    google_phone := none
    google_phone_intl := none
    phone := none
    google_website := none
    website := none
    google_vicinity := none
    address := none
    housenumber := none
    postcode := none
    search_ward := none
    search_postcode_sector := none
    search_constituency := none
    google_lat := none
    google_lng := none
    latitude := none
    longitude := none
    google_rating := none
    google_user_ratings_total := none
    google_price_level := none
    business_status := none
    validated := false
    data_source := none
    is_chain := false
    opening_hours := none
    google_opening_hours := none
    outdoor_seating := none
    takeaway := none
    delivery := none
    wheelchair := none
    google_types := none
    google_photo_reference := none
    visited := false
    visit_date := none
    interest_status := none
    is_priority := false
    notes := none
    created_at := 0
    updated_at := 0 }

/-- First venue of the spec's worked filter example: rating 4.5,
ward Clifton, operational. -/
def cliftonHigh : Venue :=
  { blankVenue with
    id := 1
    google_rating := some (4.5 : ℚ)
    search_ward := some "Clifton"
    business_status := some "OPERATIONAL" }

/-- Second venue of the example: rating 3.0, ward Clifton, operational. -/
def cliftonLow : Venue :=
  { blankVenue with
    id := 2
    google_rating := some (3.0 : ℚ)
    search_ward := some "Clifton"
    business_status := some "OPERATIONAL" }

/-- Third venue of the example: rating 4.8, ward Redland, closed. -/
def redlandClosed : Venue :=
  { blankVenue with
    id := 3
    google_rating := some (4.8 : ℚ)
    search_ward := some "Redland"
    business_status := some "CLOSED" }

/-- The three-venue store of the spec's worked filter example. -/
def exampleDb : Database :=
  { venues := [cliftonHigh, cliftonLow, redlandClosed], next_id := 4 }

/-- A one-venue store whose only record is visited and interested. -/
def interestedDb : Database :=
  { venues :=
      [{ blankVenue with
         id := 1
         visited := true
         interest_status := some "interested" }]
    next_id := 2 }

/-- A venue exercising every fallback of the export mapping: both
address variants set, only the curated phone set, an empty-string
Google website, and a recorded visit date. -/
def exportSample : Venue :=
  { blankVenue with
    google_vicinity := some "12 King St"
    address := some "14 Queen St"
    google_phone := none
    phone := some "0117 000000"
    google_website := some ""
    website := some "w.example"
    visit_date := some 5 }

/-- A CSV row that carries survey-named columns alongside its
identity key: the import must ignore all of them. -/
def surveyLadenRow : Row :=
  [("google_place_id", Cell.str "X"), ("visited", Cell.str "True"),
   ("visit_date", Cell.str "2024-01-01"),
   ("interest_status", Cell.str "interested"),
   ("is_priority", Cell.num 1), ("notes", Cell.str "hello")]

/-- The venue `surveyLadenRow` creates in an empty store at instant 7. -/
def surveyLadenVenue : Venue :=
  { blankVenue with
    id := 1
    google_place_id := some "X"
    created_at := 7
    updated_at := 7 }

/-- A one-row batch with a plain identity key, for the idempotence
witness. -/
def sampleRows : List Row :=
  [[("google_place_id", Cell.str "A"), ("google_name", Cell.str "The Crown")]]

/-- A one-row batch whose `google_place_id` column is present but
holds a missing value — the cell `row.get` delivers as a NaN float.
Its de-duplication lookup is rendered `= NaN` and matches nothing,
so the row is re-inserted by every import run. -/
def nanKeyRows : List Row :=
  [[("google_place_id", Cell.nan), ("google_name", Cell.str "The Swan")]]

/-- The header-only CSV text the spec predicts for an empty export. -/
def headerOnlyCsv : String :=
  String.intercalate "," exportHeaders ++ "\n"

/-- A single operational venue, for exercising the default
business-status filter. -/
def operationalVenue : Venue :=
  { blankVenue with id := 1, business_status := some "OPERATIONAL" }

/-- A store holding only `operationalVenue`. -/
def operationalDb : Database :=
  { venues := [operationalVenue], next_id := 2 }

/-- A store holding a single closed venue: the default filter hides
it, the explicit no-constraint call shows it. -/
def closedDb : Database :=
  { venues := [{ blankVenue with id := 1, business_status := some "CLOSED" }]
    next_id := 2 }

/-- A store with one blank venue of id 1, for the update-stamping
witness. -/
def stampDb : Database :=
  { venues := [{ blankVenue with id := 1 }], next_id := 2 }

/-- An update dict that tries to smuggle in its own `updated_at`
value alongside a notes edit. -/
def stampUpdates : List FieldUpdate :=
  [FieldUpdate.updated_at 999, FieldUpdate.notes (some "called in")]

/-- What `update_venue stampDb 5 1 stampUpdates` hands back: the
notes edit applied, the smuggled `updated_at := 999` overwritten by
the update instant 5. -/
def stampedVenue : Venue :=
  { blankVenue with id := 1, notes := some "called in", updated_at := 5 }

/-- C1: on the spec's three-venue example store,
`filter(ward='Clifton', minRating=4.0)` (business status at its
default) returns exactly the first venue, and `filter()` with every
argument at its default returns exactly the first two venues, the
closed one excluded by the default business-status filter. -/
theorem filter_example_three_venues :
    filter_venues exampleDb (some "Clifton") none none none (some (4.0 : ℚ))
        none none (some "OPERATIONAL") = [cliftonHigh] ∧
    filter_venues exampleDb none none none none none none none
        (some "OPERATIONAL") = [cliftonHigh, cliftonLow] := by
  constructor <;>
    norm_num [filter_venues, exampleDb, cliftonHigh, cliftonLow, redlandClosed,
      blankVenue, matchesCriteria, sentinelMatch, truthyMatch, ratingMatch,
      visitedMatch, List.filter_cons, List.filter_nil] <;> simp

/-- C6 (counterexample): exporting an empty venue sequence does not
produce the header-only CSV — the download block is guarded by
`if export_venues:` and emits nothing at all for an empty selection. -/
theorem export_empty_not_header_only :
    exportBlock [] ≠ some headerOnlyCsv := by
  simp [exportBlock]

/-- C6 (amended): exporting an empty venue sequence produces no CSV
file at all — the export block builds a dataframe and offers a
download only for a non-empty sequence and shows a warning otherwise;
no error is raised. -/
theorem export_empty_no_file :
    exportBlock [] = none := rfl

/-- C7: in every exported row the Address, Phone and Website columns
take the Google-sourced variant when it is a non-empty string and
fall back to the other variant when it is null or empty
(`google_vicinity or address`, `google_phone or phone`,
`google_website or website`), and the Visit Date column is the
absolute rendering of `visit_date`, absent exactly when `visit_date`
is null. -/
theorem export_row_fallbacks (v : Venue) :
    (∀ s : String, v.google_vicinity = some s → s ≠ "" →
        (export_row v).addressCol = some s) ∧
    (v.google_vicinity = none ∨ v.google_vicinity = some "" →
        (export_row v).addressCol = v.address) ∧
    (∀ s : String, v.google_phone = some s → s ≠ "" →
        (export_row v).phoneCol = some s) ∧
    (v.google_phone = none ∨ v.google_phone = some "" →
        (export_row v).phoneCol = v.phone) ∧
    (∀ s : String, v.google_website = some s → s ≠ "" →
        (export_row v).websiteCol = some s) ∧
    (v.google_website = none ∨ v.google_website = some "" →
        (export_row v).websiteCol = v.website) ∧
    ((export_row v).visitDateCol = none ↔ v.visit_date = none) ∧
    (∀ t : Nat, v.visit_date = some t →
        (export_row v).visitDateCol = some (formatTimestamp t)) := by
  refine ⟨?_, ?_, ?_, ?_, ?_, ?_, ?_, ?_⟩
  · intro s hs hne; simp [export_row, pyOrStr, hs, hne]
  · rintro (h | h) <;> simp [export_row, pyOrStr, h]
  · intro s hs hne; simp [export_row, pyOrStr, hs, hne]
  · rintro (h | h) <;> simp [export_row, pyOrStr, h]
  · intro s hs hne; simp [export_row, pyOrStr, hs, hne]
  · rintro (h | h) <;> simp [export_row, pyOrStr, h]
  · simp [export_row]
  · intro t ht; simp [export_row, ht]

/-- Witness for C7 at a concrete venue: the populated Google vicinity
wins over the curated address, a null Google phone falls back to the
curated phone, an empty-string Google website falls back to the
curated website, and the recorded visit date is rendered. -/
theorem export_row_fallbacks_witness :
    (export_row exportSample).addressCol = some "12 King St" ∧
    (export_row exportSample).phoneCol = exportSample.phone ∧
    (export_row exportSample).websiteCol = exportSample.website ∧
    (export_row exportSample).visitDateCol = some (formatTimestamp 5) :=
  ⟨(export_row_fallbacks exportSample).1 "12 King St" rfl (by decide),
   (export_row_fallbacks exportSample).2.2.2.1 (Or.inl rfl),
   (export_row_fallbacks exportSample).2.2.2.2.2.1 (Or.inr rfl),
   (export_row_fallbacks exportSample).2.2.2.2.2.2.2 5 rfl⟩

/-- C8: `get_statistics` reports `conversionRate =
interested / visited * 100` whenever any venue is visited, and
exactly `0` when none is — the guard makes the division branch
unreachable at `visited = 0`, so no division error can occur. -/
theorem statistics_conversion_rate (db : Database) :
    (0 < (get_statistics db).visited →
      (get_statistics db).conversion_rate =
        ((get_statistics db).interested : ℚ) /
          ((get_statistics db).visited : ℚ) * 100) ∧
    ((get_statistics db).visited = 0 →
      (get_statistics db).conversion_rate = 0) := by
  unfold get_statistics
  refine ⟨fun h => ?_, fun h => ?_⟩
  · simp only at h ⊢
    rw [if_pos h]
  · simp only at h ⊢
    rw [if_neg (by omega)]

/-- Witness for C8: the stated formula at a store with one visited
interested venue, and the zero rate at an empty store. -/
theorem statistics_conversion_rate_witness :
    (get_statistics interestedDb).conversion_rate =
      ((get_statistics interestedDb).interested : ℚ) /
        ((get_statistics interestedDb).visited : ℚ) * 100 ∧
    (get_statistics (Database.mk [] 1)).conversion_rate = 0 :=
  ⟨(statistics_conversion_rate interestedDb).1 (by decide),
   (statistics_conversion_rate ⟨[], 1⟩).2 (by decide)⟩

/-- C4: updating an id absent from the store returns the not-found
signal (`None`) instead of raising, and leaves the store — every
record, every field, every `updated_at` — exactly as it was. -/
theorem update_missing_id (db : Database) (now venue_id : Nat)
    (updates : List FieldUpdate)
    (h : db.venues.all (fun v => v.id != venue_id) = true) :
    update_venue db now venue_id updates = (none, db) := by
  have hf : db.venues.find? (fun v => v.id == venue_id) = none := by
    rw [List.find?_eq_none]
    intro x hx
    have hx' := List.all_eq_true.mp h x hx
    simpa using hx'
  simp [update_venue, hf]

/-- Witness for C4: updating id 9999 in an empty store returns
not-found and the unchanged store. -/
theorem update_missing_id_witness :
    (Database.mk [] 1).venues.all (fun v => v.id != 9999) = true ∧
    update_venue ⟨[], 1⟩ 3 9999 [FieldUpdate.visited true] = (none, ⟨[], 1⟩) :=
  ⟨by decide, update_missing_id ⟨[], 1⟩ 3 9999 [FieldUpdate.visited true] (by decide)⟩

/-- C10: a successful update always stamps `updated_at` with the
update's own instant: the caller's field assignments — even one that
writes the `updated_at` key — are applied first and then
unconditionally overwritten, so the returned venue carries the update
instant and every record of the new store is either an untouched old
record or carries the update instant. -/
theorem update_stamps_updated_at (db : Database) (now venue_id : Nat)
    (updates : List FieldUpdate) :
    (∀ v', (update_venue db now venue_id updates).1 = some v' →
        v'.updated_at = now) ∧
    (∀ w ∈ (update_venue db now venue_id updates).2.venues,
        w ∈ db.venues ∨ w.updated_at = now) := by
  cases hf : db.venues.find? (fun v => v.id == venue_id) with
  | none =>
      refine ⟨fun v' hv' => ?_, fun w hw => ?_⟩
      · simp [update_venue, hf] at hv'
      · simp [update_venue, hf] at hw
        exact .inl hw
  | some v =>
      refine ⟨fun v' hv' => ?_, fun w hw => ?_⟩
      · simp [update_venue, hf] at hv'
        rw [← hv']
        simp [applyThenStamp]
      · simp [update_venue, hf, List.mem_map] at hw
        obtain ⟨u, hu, heq⟩ := hw
        by_cases hc : u.id = venue_id
        · right
          rw [← heq, if_pos hc]
          simp [applyThenStamp]
        · left
          rw [← heq, if_neg hc]
          exact hu

/-- Witness for C10: at instant 5, an update whose dict carries
`updated_at := 999` still yields a venue stamped 5. -/
theorem update_stamps_updated_at_witness :
    (update_venue stampDb 5 1 stampUpdates).1 = some stampedVenue ∧
    stampedVenue.updated_at = 5 :=
  ⟨by decide,
   (update_stamps_updated_at stampDb 5 1 stampUpdates).1 stampedVenue (by decide)⟩

/-- C2: `filter` is tri-state on business status.  With the argument
at its Python default `'OPERATIONAL'` (the omitted-argument case)
every returned venue is operational; with an explicitly empty
constraint (`None`) membership is governed by the remaining criteria
alone; and the two calls differ on a store holding a closed venue. -/
theorem filter_business_status_tristate :
    (∀ (db : Database) (ward postcode_sector amenity cuisine : Option String)
        (min_rating : Option ℚ) (visited : Option Bool)
        (interest_status : Option String) (v : Venue),
        v ∈ filter_venues db ward postcode_sector amenity cuisine min_rating
              visited interest_status (some "OPERATIONAL") →
        v.business_status = some "OPERATIONAL") ∧
    (∀ (db : Database) (ward postcode_sector amenity cuisine : Option String)
        (min_rating : Option ℚ) (visited : Option Bool)
        (interest_status : Option String) (v : Venue),
        v ∈ filter_venues db ward postcode_sector amenity cuisine min_rating
              visited interest_status none ↔
          v ∈ db.venues ∧
            matchesCriteria ward postcode_sector amenity cuisine min_rating
              visited interest_status v = true) ∧
    (∃ db : Database,
        filter_venues db none none none none none none none
            (some "OPERATIONAL") ≠
          filter_venues db none none none none none none none none) := by
  refine ⟨?_, ?_, ?_⟩
  · intro db ward postcode_sector amenity cuisine min_rating visited
      interest_status v hv
    simp [filter_venues, truthyMatch, List.mem_filter] at hv
    tauto
  · intro db ward postcode_sector amenity cuisine min_rating visited
      interest_status v
    simp [filter_venues, truthyMatch, List.mem_filter]
  · exact ⟨closedDb, by decide⟩

/-- Witness for C2: on a one-venue operational store the
default-filtered result is operational, and on the example store the
`None`-status membership is equivalent to the other criteria alone. -/
theorem filter_business_status_tristate_witness :
    operationalVenue.business_status = some "OPERATIONAL" ∧
    (redlandClosed ∈ filter_venues exampleDb none none none none none none
          none none ↔
      redlandClosed ∈ exampleDb.venues ∧
        matchesCriteria none none none none none none none redlandClosed = true) :=
  ⟨filter_business_status_tristate.1 operationalDb none none none none none
      none none operationalVenue (by decide),
   filter_business_status_tristate.2.1 exampleDb none none none none none
      none none redlandClosed⟩

/-- C5: the great-circle distance from a valid (non-falsy) coordinate
pair to itself is exactly zero — the haversine argument collapses to
`sin 0 = 0`, `arcsin (sqrt 0) = 0`, and rounding preserves zero. -/
theorem distance_self_zero (lat lon : ℝ) (h1 : lat ≠ 0) (h2 : lon ≠ 0) :
    calculate_distance Real.pi Real.sin Real.cos Real.sqrt Real.arcsin
        (fun x => ((round (x * 100) : ℤ) : ℝ) / 100)
        (some lat) (some lon) (some lat) (some lon) = some 0 := by
  simp only [calculate_distance]
  rw [if_neg (by push_neg; exact ⟨h1, h2, h1, h2⟩)]
  norm_num [Real.sin_zero, Real.sqrt_zero, Real.arcsin_zero]

/-- Witness for C5 at the spec's Bristol-centre coordinates. -/
theorem distance_self_zero_witness :
    (51.4545 : ℝ) ≠ 0 ∧ (-2.5879 : ℝ) ≠ 0 ∧
    calculate_distance Real.pi Real.sin Real.cos Real.sqrt Real.arcsin
        (fun x => ((round (x * 100) : ℤ) : ℝ) / 100)
        (some (51.4545 : ℝ)) (some (-2.5879 : ℝ)) (some 51.4545)
        (some (-2.5879)) = some 0 :=
  ⟨by norm_num, by norm_num,
   distance_self_zero 51.4545 (-2.5879) (by norm_num) (by norm_num)⟩

/-- A successfully constructed venue stores its row's key cell. -/
theorem buildVenue_ok_key {row : Row} {vid now : Nat} {v : Venue}
    (h : buildVenue row vid now = .ok v) :
    v.google_place_id = cellToStr (rowKey row) := by
  unfold buildVenue at h
  cases hn : rowNums row with
  | ok nums =>
      rw [hn] at h
      simp only [Except.map, Except.ok.injEq] at h
      rw [← h]
      rfl
  | error e =>
      rw [hn] at h
      simp [Except.map] at h

/-- A successfully constructed venue has every survey field at its
column default. -/
theorem buildVenue_ok_defaults {row : Row} {vid now : Nat} {v : Venue}
    (h : buildVenue row vid now = .ok v) :
    v.visited = false ∧ v.visit_date = none ∧ v.interest_status = none ∧
      v.is_priority = false ∧ v.notes = none := by
  unfold buildVenue at h
  cases hn : rowNums row with
  | ok nums =>
      rw [hn] at h
      simp only [Except.map, Except.ok.injEq] at h
      rw [← h]
      exact ⟨rfl, rfl, rfl, rfl, rfl⟩
  | error e =>
      rw [hn] at h
      simp [Except.map] at h

/-- Whether a row's construction raises is independent of the
assigned key and insert instant: a failing row fails at any `vid`
and `now`. -/
theorem buildVenue_error_of_rowFails {row : Row} {vid now : Nat}
    (h : rowFails row = true) :
    buildVenue row vid now = .error () := by
  unfold rowFails at h
  unfold buildVenue
  cases hn : rowNums row with
  | ok nums =>
      rw [hn] at h
      simp at h
  | error e =>
      cases e
      rfl

/-- Conversely, a raising construction means the row's numeric
coercions fail. -/
theorem rowFails_of_buildVenue_error {row : Row} {vid now : Nat} {e : Unit}
    (h : buildVenue row vid now = .error e) :
    rowFails row = true := by
  unfold buildVenue at h
  unfold rowFails
  cases hn : rowNums row with
  | ok nums =>
      rw [hn] at h
      simp [Except.map] at h
  | error e' =>
      rfl

/-- One import iteration never removes a key from the store. -/
theorem hasKey_importStep {now : Nat} {s : ImportState} {row : Row}
    {k : Cell} (h : hasKey s.db k = true) :
    hasKey (importStep now s row).db k = true := by
  unfold importStep
  split
  · exact h
  · split
    · simp only [hasKey] at h ⊢
      rw [List.any_append]
      simp [h]
    · exact h

/-- One import iteration preserves settledness of any row. -/
theorem rowSettled_importStep {now : Nat} {s : ImportState} {row r : Row}
    (h : rowSettled s.db r) :
    rowSettled (importStep now s row).db r :=
  h.elim Or.inl (fun hk => Or.inr (hasKey_importStep hk))

/-- A whole import batch preserves settledness of any row. -/
theorem rowSettled_foldl (now : Nat) (rows : List Row) (s : ImportState)
    (r : Row) (h : rowSettled s.db r) :
    rowSettled ((rows.foldl (importStep now) s)).db r := by
  induction rows generalizing s with
  | nil => exact h
  | cons a as ih => exact ih (importStep now s a) (rowSettled_importStep h)

/-- A non-NaN key cell matches the stored value it produces: the
string and numeric renderings compare literally and the absent
column's `NULL` satisfies `IS NULL`.  (A NaN cell is the one key that
never matches anything, its own stored `NULL` included.) -/
theorem keyMatches_cellToStr {c : Cell} (h : c ≠ Cell.nan) :
    keyMatches c (cellToStr c) = true := by
  cases c with
  | str s => simp [keyMatches, cellToStr]
  | num q => simp [keyMatches, cellToStr]
  | nan => exact absurd rfl h
  | absent => simp [keyMatches, cellToStr]

/-- After its own iteration a row without a NaN key cell is settled:
it either raised (and always will) or its key now matches a stored
record. -/
theorem importStep_settles (now : Nat) (s : ImportState) (row : Row)
    (hnk : rowKey row ≠ Cell.nan) :
    rowSettled (importStep now s row).db row := by
  unfold importStep
  split
  next hk => exact Or.inr hk
  next hk =>
    cases hb : buildVenue row s.db.next_id now with
    | ok v =>
        refine Or.inr ?_
        have hkey := buildVenue_ok_key hb
        show hasKey ⟨s.db.venues ++ [v], s.db.next_id + 1⟩ (rowKey row) = true
        simp only [hasKey, List.any_append]
        simp [hkey, keyMatches_cellToStr hnk]
    | error e =>
        exact Or.inl (rowFails_of_buildVenue_error hb)

/-- Importing a batch of settled rows imports nothing and leaves the
store untouched: each such row is skipped (key present) or counted
only as an error (raises again). -/
theorem foldl_settled (now : Nat) (rows : List Row) (s : ImportState)
    (h : ∀ r ∈ rows, rowSettled s.db r) :
    (rows.foldl (importStep now) s).imported = s.imported ∧
      (rows.foldl (importStep now) s).db = s.db := by
  induction rows generalizing s with
  | nil => exact ⟨rfl, rfl⟩
  | cons a as ih =>
      have ha := h a (List.mem_cons_self a as)
      have hstep : (importStep now s a).db = s.db ∧
          (importStep now s a).imported = s.imported := by
        unfold importStep
        rcases ha with hf | hk
        · split
          next => exact ⟨rfl, rfl⟩
          next =>
            rw [buildVenue_error_of_rowFails hf]
            exact ⟨rfl, rfl⟩
        · rw [if_pos hk]
          exact ⟨rfl, rfl⟩
      have h' : ∀ r ∈ as, rowSettled (importStep now s a).db r := by
        intro r hr
        rw [hstep.1]
        exact h r (List.mem_cons_of_mem a hr)
      have hih := ih (importStep now s a) h'
      simp only [List.foldl_cons]
      exact ⟨hih.1.trans hstep.2, hih.2.trans hstep.1⟩

/-- After an import every processed row without a NaN key cell is
settled against the resulting store. -/
theorem import_settles_all (now : Nat) (rows : List Row) (s : ImportState)
    (hnk : ∀ r ∈ rows, rowKey r ≠ Cell.nan) :
    ∀ r ∈ rows, rowSettled ((rows.foldl (importStep now) s)).db r := by
  induction rows generalizing s with
  | nil => intro r hr; cases hr
  | cons a as ih =>
      intro r hr
      simp only [List.foldl_cons]
      rcases List.mem_cons.mp hr with rfl | hmem
      · exact rowSettled_foldl now as (importStep now s r) r
          (importStep_settles now s r (hnk r (List.mem_cons_self r as)))
      · exact ih (importStep now s a)
          (fun r' hr' => hnk r' (List.mem_cons_of_mem a hr')) r hmem

/-- C3 (counterexample): import is not idempotent on every row set.
A row whose `google_place_id` column is present but empty carries a
NaN key; its de-duplication lookup is rendered `= NaN` and matches no
row (the insert meanwhile stores `NULL`), so re-importing the same
one-row batch imports it again — the second `importedCount` is not 0. -/
theorem import_nan_key_not_idempotent :
    (import_from_csv (import_from_csv ⟨[], 1⟩ 1 nanKeyRows).db 2
        nanKeyRows).imported ≠ 0 := by
  decide

/-- C3 (amended): import is idempotent keyed on identity for every
row set with no NaN identity-key cell.  Re-importing such a row set
yields `importedCount = 0` and adds no record: every row that
succeeded the first time now finds its `google_place_id` in the store
(string and numeric keys compare literally, an absent key column
matches the stored `NULL` via `IS NULL`) and is skipped, and every
row that raised the first time raises again (counted as an error, not
as imported). -/
theorem import_idempotent_no_nan_key (db : Database) (rows : List Row)
    (t1 t2 : Nat)
    (hnk : rows.all (fun r => decide (rowKey r ≠ Cell.nan)) = true) :
    (import_from_csv (import_from_csv db t1 rows).db t2 rows).imported = 0 ∧
      (import_from_csv (import_from_csv db t1 rows).db t2 rows).db =
        (import_from_csv db t1 rows).db := by
  have hnk' : ∀ r ∈ rows, rowKey r ≠ Cell.nan := by
    intro r hr
    simpa using List.all_eq_true.mp hnk r hr
  have hall : ∀ r ∈ rows, rowSettled (import_from_csv db t1 rows).db r :=
    import_settles_all t1 rows ⟨db, 0, 0⟩ hnk'
  exact foldl_settled t2 rows ⟨(import_from_csv db t1 rows).db, 0, 0⟩ hall

/-- Witness for the amended C3: importing a one-row batch with a
plain string key twice into an empty store imports nothing the second
time. -/
theorem import_idempotent_no_nan_key_witness :
    sampleRows.all (fun r => decide (rowKey r ≠ Cell.nan)) = true ∧
    ((import_from_csv (import_from_csv ⟨[], 1⟩ 1 sampleRows).db 2
        sampleRows).imported = 0 ∧
      (import_from_csv (import_from_csv ⟨[], 1⟩ 1 sampleRows).db 2
          sampleRows).db = (import_from_csv ⟨[], 1⟩ 1 sampleRows).db) :=
  ⟨by decide, import_idempotent_no_nan_key ⟨[], 1⟩ sampleRows 1 2 (by decide)⟩

/-- C9: every venue an import adds starts with the survey fields at
their defaults (`visited = false`, `visit_date`, `interest_status`
and `notes` null, `is_priority = false`), whatever columns — survey-
named ones included — the row carries: the `Venue(...)` constructor
never reads them. -/
theorem import_survey_defaults (db : Database) (now : Nat) (rows : List Row)
    (v : Venue) (hv : v ∈ (import_from_csv db now rows).db.venues) :
    v ∈ db.venues ∨
      (v.visited = false ∧ v.visit_date = none ∧ v.interest_status = none ∧
        v.is_priority = false ∧ v.notes = none) := by
  suffices h : ∀ (rs : List Row) (s : ImportState),
      (∀ w ∈ s.db.venues, w ∈ db.venues ∨
        (w.visited = false ∧ w.visit_date = none ∧ w.interest_status = none ∧
          w.is_priority = false ∧ w.notes = none)) →
      ∀ w ∈ ((rs.foldl (importStep now) s)).db.venues, w ∈ db.venues ∨
        (w.visited = false ∧ w.visit_date = none ∧ w.interest_status = none ∧
          w.is_priority = false ∧ w.notes = none) by
    exact h rows ⟨db, 0, 0⟩ (fun w hw => Or.inl hw) v hv
  intro rs
  induction rs with
  | nil => intro s hs; exact hs
  | cons a as ih =>
      intro s hs
      simp only [List.foldl_cons]
      apply ih
      intro w hw
      unfold importStep at hw
      by_cases hk : hasKey s.db (rowKey a) = true
      · rw [if_pos hk] at hw
        exact hs w hw
      · rw [if_neg hk] at hw
        cases hb : buildVenue a s.db.next_id now with
        | ok u =>
            rw [hb] at hw
            have hw' : w ∈ s.db.venues ++ [u] := hw
            rcases List.mem_append.mp hw' with h1 | h2
            · exact hs w h1
            · rw [List.mem_singleton] at h2
              subst h2
              exact Or.inr (buildVenue_ok_defaults hb)
        | error e =>
            rw [hb] at hw
            exact hs w hw

/-- Witness for C9: a CSV row carrying `visited`, `visit_date`,
`interest_status`, `is_priority` and `notes` columns still creates a
venue with all survey fields at their defaults. -/
theorem import_survey_defaults_witness :
    surveyLadenVenue ∈ (import_from_csv ⟨[], 1⟩ 7 [surveyLadenRow]).db.venues ∧
    (surveyLadenVenue ∈ (Database.mk [] 1).venues ∨
      (surveyLadenVenue.visited = false ∧ surveyLadenVenue.visit_date = none ∧
        surveyLadenVenue.interest_status = none ∧
        surveyLadenVenue.is_priority = false ∧ surveyLadenVenue.notes = none)) :=
  ⟨by decide,
   import_survey_defaults ⟨[], 1⟩ 7 [surveyLadenRow] surveyLadenVenue (by decide)⟩
